import Mathlib

set_option maxRecDepth 8000
set_option maxHeartbeats 1000000
set_option exponentiation.threshold 1100

/-!
Verification of the analysis-and-translation engine of
`src/tools/port_gpui_example.py` (GPUI example porter).

Texts are modelled as `String` / `List Char` (Python `str` over code points).
Each definition is a direct transcription of the corresponding Python
function; the fixed pieces of the two f-string templates are transcribed
byte-for-byte as `rc*` / `zc*` chunks (with `\x7b`/`\x7d`/`\x27`/`\x23`
escapes for braces, apostrophes and hashes).
-/

/-- Does `pat` occur as a contiguous substring of the second list?
Models `re.search` of a regex that is a plain literal. -/
def containsSub (pat : List Char) : List Char → Bool
  | [] => pat.isEmpty
  | c :: rest => pat.isPrefixOf (c :: rest) || containsSub pat rest

/-- Matcher for the tail `[^)]*format!` of the one non-literal rule pattern:
either `format!` starts here, or the current char is not `)` and we continue. -/
def noCloseThenFormat : List Char → Bool
  | [] => false
  | c :: rest => ("format!".data).isPrefixOf (c :: rest) || (c != ')' && noCloseThenFormat rest)

/-- Models `re.search(r'\.child\([^)]*format!', s)`: some position starts with
`.child(` followed by a `)`-free gap and then `format!`. -/
def searchChildFormat : List Char → Bool
  | [] => false
  | c :: rest =>
    ((".child(".data).isPrefixOf (c :: rest) && noCloseThenFormat (List.drop 7 (c :: rest)))
      || searchChildFormat rest

/-- A detection pattern of the unsupported-feature table: every rule regex is a
literal string except `\.child\([^)]*format!`. -/
inductive Pat where
  | lit (s : String)
  | childFormat
deriving DecidableEq

/-- Existence test of a pattern in a text (Python `re.search(pattern, text)` truthiness). -/
def Pat.matchesIn : Pat → List Char → Bool
  | .lit p, cs => containsSub p.data cs
  | .childFormat, cs => searchChildFormat cs

/-- UNSUPPORTED_FEATURES: the ordered (pattern, message) rule table, literal for
literal (regex escapes `\.` `\(` resolved to the characters they match). -/
def UNSUPPORTED_FEATURES : List (Pat × String) := [
  (.lit (".on_click("), "Event handlers need manual implementation"),
  (.lit (".on_mouse_"), "Mouse events need manual implementation"),
  (.childFormat, "Format strings: use std.fmt.bufPrint"),
  (.lit ("impl Render"), "Render trait: convert to render function"),
  (.lit ("cx.new("), "Context/state: needs manual conversion"),
  (.lit (".when("), "Conditional rendering: use if/else"),
  (.lit (".map("), "Iterator mapping: use Zig for loop"),
  (.lit ("uniform_list"), "List virtualization: not yet implemented"),
  (.lit ("canvas("), "Canvas/custom painting: not yet implemented"),
  (.lit ("img("), "Image loading: not yet implemented"),
  (.lit ("svg("), "SVG rendering: not yet implemented"),
  (.lit ("Animation"), "Animations: not yet implemented")]

/-- The warnings loop of `analyze_example`: append the message of each rule
whose pattern occurs in the text. -/
def analyzeWarnings (s : String) : List String :=
  UNSUPPORTED_FEATURES.foldl (fun acc r => if r.1.matchesIn s.data then acc ++ [r.2] else acc) []

/-- The character class `[0-9a-fA-F]`. -/
def isHexDig (c : Char) : Bool := c.isDigit || ('a' ≤ c && c ≤ 'f') || ('A' ≤ c && c ≤ 'F')

/-- One match attempt of `rgb\(0x([0-9a-fA-F]+)\)` at the head of the list:
literal `rgb(0x`, a maximal nonempty hex-digit run (greedy; giving back digits
can never make the following `)` match, so greedy-then-check is exact), then `)`.
Returns the capture and the remainder after the match. -/
def tryRgbHex (cs : List Char) : Option (List Char × List Char) :=
  if ("rgb(0x".data).isPrefixOf cs then
    if ((List.dropWhile isHexDig (List.drop 6 cs)).head? == some ')')
        && !(List.takeWhile isHexDig (List.drop 6 cs)).isEmpty then
      some (List.takeWhile isHexDig (List.drop 6 cs),
        (List.dropWhile isHexDig (List.drop 6 cs)).tail)
    else none
  else none

/-- Fueled scan for `re.finditer`: try a match at each position, continuing after
the consumed text on success (non-overlapping) and one char on failure. The fuel
(initialised to the text length) strictly dominates the remaining text, so it
never runs out before the scan finishes. -/
def hexScanGo : Nat → List Char → List (List Char)
  | 0, _ => []
  | _ + 1, [] => []
  | fuel + 1, c :: rest =>
    match tryRgbHex (c :: rest) with
    | some (h, after) => h :: hexScanGo fuel after
    | none => hexScanGo fuel rest

/-- All captures of `re.finditer(r'rgb\(0x([0-9a-fA-F]+)\)', cs)` in order. -/
def hexScan (cs : List Char) : List (List Char) := hexScanGo cs.length cs

/-- ASCII word character (`\w`). Python's `\w` also covers non-ASCII letters; a
non-ASCII word char can never be part of a capture equal to one of the six ASCII
color names, and a longer capture is discarded by the name check either way, so
the restriction is invisible to the analyzer's output. -/
def isWordChar (c : Char) : Bool := c.isAlphanum || c == '_'

/-- One match attempt of `gpui::(\w+)\(\)` at the head of the list (greedy word
run then `()`; a word char is never `(`, so backtracking cannot help). -/
def tryGpui (cs : List Char) : Option (List Char × List Char) :=
  if ("gpui::".data).isPrefixOf cs then
    if ("()".data).isPrefixOf (List.dropWhile isWordChar (List.drop 6 cs))
        && !(List.takeWhile isWordChar (List.drop 6 cs)).isEmpty then
      some (List.takeWhile isWordChar (List.drop 6 cs),
        List.drop 2 (List.dropWhile isWordChar (List.drop 6 cs)))
    else none
  else none

/-- Fueled scan for `re.finditer(r'gpui::(\w+)\(\)', cs)`, as `hexScanGo`. -/
def gpuiScanGo : Nat → List Char → List (List Char)
  | 0, _ => []
  | _ + 1, [] => []
  | fuel + 1, c :: rest =>
    match tryGpui (c :: rest) with
    | some (w, after) => w :: gpuiScanGo fuel after
    | none => gpuiScanGo fuel rest

/-- All captures of `re.finditer(r'gpui::(\w+)\(\)', cs)` in order. -/
def gpuiScan (cs : List Char) : List (List Char) := gpuiScanGo cs.length cs

/-- The fixed list of recognised named colors (source line 92). -/
def namedColors : List String := ["red", "green", "blue", "yellow", "black", "white"]

/-- Python `set.add`: the colors set is modelled as a duplicate-free list in insertion
order. Python's `set` iterates in unspecified hash order; every consumer of the
set (membership, `len`, `sorted`) is order-insensitive, and the theorems below
about `sorted` make that explicit. -/
def setAdd (l : List String) (x : String) : List String := if x ∈ l then l else l ++ [x]

/-- The two color-extraction loops of `analyze_example`: hex captures added
first, then the named captures filtered by `namedColors`. -/
def analyzeColors (s : String) : List String :=
  let afterHex := (hexScan s.data).foldl (fun acc h => setAdd acc (String.mk h)) []
  (gpuiScan s.data).foldl
    (fun acc w => if String.mk w ∈ namedColors then setAdd acc (String.mk w) else acc) afterHex

/-- All engine splits of a leading digit run: `digitSplits cs` lists the pairs
`(d, r)` with `d ++ r = cs` and `d` all digits, longest `d` first — the order in
which a greedy `\d*` hands positions to the regex continuation. -/
def digitSplits : List Char → List (List Char × List Char)
  | [] => [([], [])]
  | c :: rest =>
    if c.isDigit then
      ((digitSplits rest).map (fun p => (c :: p.1, p.2))) ++ [([], c :: rest)]
    else [([], c :: rest)]

/-- The continuations after a greedy `\d+` candidate: when a dot follows, the
dot-plus-greedy-`\d*` options (longest first) come before the dot-less option,
matching the engine order for `\.?\d*`. -/
def numTail (d rest : List Char) : List (List Char × List Char) :=
  if rest.head? = some '.' then
    ((digitSplits rest.tail).map (fun q => (d ++ '.' :: q.1, q.2))) ++ [(d, rest)]
  else [(d, rest)]

/-- Candidate (capture, rest) pairs for `(\d+\.?\d*)` in backtracking order:
nonempty digit run (greedy), optionally a dot and a second greedy digit run.
Successive candidates consume strictly less, matching the order in which the
Python engine hands rest-positions to the continuation. -/
def numCands (cs : List Char) : List (List Char × List Char) :=
  ((digitSplits cs).filter (fun p => !p.1.isEmpty)).flatMap (fun p => numTail p.1 p.2)

/-- One attempt of `px\((\d+\.?\d*)\)` at the current position: the literal
`px(`, a number candidate, then `)` immediately after it. -/
def pxAttempt (cs : List Char) : Option (List Char) :=
  if ("px(".data).isPrefixOf cs then
    (numCands (List.drop 3 cs)).findSome? (fun p =>
      if p.2.head? = some ')' then some p.1 else none)
  else none

/-- The continuation `.*?px\((\d+\.?\d*)\)` of the window-size regex: a lazy
dot (any char except newline — `re.DOTALL` is not set), then `px(`, the second
number capture, and `)`. Tries `px(` at the current position first, then widens
the gap one char at a time, stopping at a newline. -/
def matchTail : List Char → Option (List Char)
  | [] => none
  | c :: rest =>
    match pxAttempt (c :: rest) with
    | some cap => some cap
    | none => if c == '\n' then none else matchTail rest

/-- A full match attempt of `size\(px\((\d+\.?\d*).*?px\((\d+\.?\d*)\)` at the
head of the list, returning the two captures. -/
def sizeMatchAt (cs : List Char) : Option (List Char × List Char) :=
  if ("size(px(".data).isPrefixOf cs then
    (numCands (List.drop 8 cs)).findSome? (fun p => (matchTail p.2).map (fun c2 => (p.1, c2)))
  else none

/-- Models `re.search`: leftmost match wins; scan every start position left to right. -/
def sizeSearch : List Char → Option (List Char × List Char)
  | [] => none
  | c :: rest =>
    match sizeMatchAt (c :: rest) with
    | some r => some r
    | none => sizeSearch rest

/-- Numeric value of a digit string. -/
def digitsToNat (ds : List Char) : Nat := ds.foldl (fun n c => 10 * n + (c.toNat - '0'.toNat)) 0

/-- Models `int(float(s))` on the capture shapes `\d+\.?\d*` produced by the
size regex. CPython's `float` rounds the decimal to the nearest binary64 and
yields `inf` (without raising) when the value reaches the rounding boundary
2^1024 - 2^970 above the largest finite double; `int(inf)` then raises
OverflowError, modelled here as `none`. The boundary is an integer and the
fractional part of a capture is below one, so overflow holds exactly when the
integer digit run is at least the boundary. Below it the model returns the
truncated decimal integer part; Python's route through binary64 additionally
rounds finite values beyond 53 bits of precision, a value-level deviation of
this model (never a some/none one) that no theorem here depends on: every
concrete capture in the claims is tiny, where the model is exact. Any string
not of the capture shape is a parse failure (`none` = a raised exception). -/
def pyIntFloat (cs : List Char) : Option Nat :=
  if (cs.takeWhile Char.isDigit).isEmpty then none
  else if 2 ^ 1024 - 2 ^ 970 ≤ digitsToNat (cs.takeWhile Char.isDigit) then none
  else if cs.dropWhile Char.isDigit = [] then some (digitsToNat (cs.takeWhile Char.isDigit))
  else if ((cs.dropWhile Char.isDigit).head? = some '.')
      && ((cs.dropWhile Char.isDigit).tail).all Char.isDigit then
    some (digitsToNat (cs.takeWhile Char.isDigit))
  else none

/-- The analysis record built by `analyze_example` (the Python dict with its
four fixed keys). -/
structure Analysis where
  warnings : List String
  colors : List String
  window_size : Nat × Nat
  title : String
deriving DecidableEq

/-- The window-size step of `analyze_example`: keep the default `(500, 500)`
when the regex has no match, otherwise `int(float(...))` both captures.
`none` models an uncaught exception. -/
def sizeResult (s : String) : Option (Nat × Nat) :=
  match sizeSearch s.data with
  | none => some (500, 500)
  | some (c1, c2) =>
    match pyIntFloat c1, pyIntFloat c2 with
    | some w, some h => some (w, h)
    | _, _ => none

/-- Models `analyze_example(rust_code)`. `none` models the call raising an exception
(there is no try/except in the Python function, so a numeric-parse failure
would propagate to the caller). -/
def analyze (s : String) : Option Analysis :=
  (sizeResult s).map (fun ws =>
    { warnings := analyzeWarnings s
      colors := analyzeColors s
      window_size := ws
      title := "ZapUI" })
/-- Fixed template chunk rc0 of the source f-string. -/
def rc0 : String :=
"<!DOCTYPE html>
<html lang=\"en\">
<head>
    <meta charset=\"UTF-8\">
    <meta name=\"viewport\" content=\"width=device-width, initial-scale=1.0\">
    <title>"

/-- Part 0 of template chunk rc1. -/
def rc1p0 : String :=
" - GPUI Port Comparison</title>
    <style>
        * \x7b box-sizing: border-box; \x7d
        body \x7b
            font-family: -apple-system, BlinkMacSystemFont, \x27Segoe UI\x27, Roboto, sans-serif;
            margin: 0;
            padding: 20px;
            background: \x231a1a1a;
            color: \x23e0e0e0;
        \x7d
        h1, h2, h3 \x7b color: \x23fff; \x7d
        h1 \x7b border-bottom: 2px solid \x233b82f6; padding-bottom: 10px; \x7d
        h2 \x7b border-bottom: 1px solid \x23333; padding-bottom: 8px"

/-- Part 1 of template chunk rc1. -/
def rc1p1 : String :=
"; margin-top: 30px; \x7d
        
        .grid \x7b display: grid; grid-template-columns: 1fr 1fr; gap: 20px; \x7d
        .grid-3 \x7b display: grid; grid-template-columns: 1fr 1fr 1fr; gap: 20px; \x7d
        
        .card \x7b
            background: \x23252525;
            border-radius: 8px;
            padding: 15px;
            border: 1px solid \x23333;
        \x7d
        .card h3 \x7b margin-top: 0; color: \x233b82f6; \x7d
        
        .screenshot \x7b
            max-width: 100%;
            bord"

/-- Part 2 of template chunk rc1. -/
def rc1p2 : String :=
"er-radius: 4px;
            border: 1px solid \x23444;
        \x7d
        .screenshot-container \x7b
            text-align: center;
        \x7d
        .screenshot-container img \x7b
            max-height: 400px;
            object-fit: contain;
        \x7d
        
        pre \x7b
            background: \x231e1e1e;
            border: 1px solid \x23333;
            border-radius: 4px;
            padding: 15px;
            overflow-x: auto;
            font-size: 13px;
            line-height:"

/-- Part 3 of template chunk rc1. -/
def rc1p3 : String :=
" 1.4;
            max-height: 600px;
            overflow-y: auto;
        \x7d
        code \x7b font-family: \x27Fira Code\x27, \x27Consolas\x27, monospace; \x7d
        
        .rust \x7b border-left: 3px solid \x23dea584; \x7d
        .zig \x7b border-left: 3px solid \x23f7a41d; \x7d
        
        .warnings \x7b background: \x233a2a00; border-color: \x235a4a00; \x7d
        .warnings li \x7b margin: 5px 0; \x7d
        .warnings .success \x7b color: \x234ade80; \x7d
        
        .stats \x7b
            display: flex;
            ga"

/-- Part 4 of template chunk rc1. -/
def rc1p4 : String :=
"p: 20px;
            flex-wrap: wrap;
        \x7d
        .stat \x7b
            background: \x23333;
            padding: 10px 20px;
            border-radius: 4px;
        \x7d
        .stat-value \x7b font-size: 24px; font-weight: bold; color: \x233b82f6; \x7d
        .stat-label \x7b font-size: 12px; color: \x23888; \x7d
        
        .commands \x7b
            background: \x231e1e1e;
            padding: 15px;
            border-radius: 4px;
            font-family: monospace;
        \x7d
        .comman"

/-- Part 5 of template chunk rc1. -/
def rc1p5 : String :=
"ds code \x7b
            display: block;
            padding: 5px 0;
            color: \x234ade80;
        \x7d
        
        a \x7b color: \x233b82f6; \x7d
        
        @media (max-width: 900px) \x7b
            .grid, .grid-3 \x7b grid-template-columns: 1fr; \x7d
        \x7d
    </style>
</head>
<body>
    <h1>"

/-- Fixed template chunk rc1 of the source f-string. -/
def rc1 : String := rc1p0 ++ rc1p1 ++ rc1p2 ++ rc1p3 ++ rc1p4 ++ rc1p5

/-- Fixed template chunk rc2 of the source f-string. -/
def rc2 : String :=
" - GPUI Port Comparison</h1>
    
    <div class=\"stats\">
        <div class=\"stat\">
            <div class=\"stat-value\">"

/-- Fixed template chunk rc3 of the source f-string. -/
def rc3 : String :=
"</div>
            <div class=\"stat-label\">Rust LOC</div>
        </div>
        <div class=\"stat\">
            <div class=\"stat-value\">"

/-- Fixed template chunk rc4 of the source f-string. -/
def rc4 : String :=
"</div>
            <div class=\"stat-label\">Zig LOC</div>
        </div>
        <div class=\"stat\">
            <div class=\"stat-value\">"

/-- Fixed template chunk rc5 of the source f-string. -/
def rc5 : String :=
"</div>
            <div class=\"stat-label\">Colors</div>
        </div>
        <div class=\"stat\">
            <div class=\"stat-value\">"

/-- Fixed template chunk rc6 of the source f-string. -/
def rc6 : String :=
"x"

/-- Fixed template chunk rc7 of the source f-string. -/
def rc7 : String :=
"</div>
            <div class=\"stat-label\">Window Size</div>
        </div>
    </div>
    
    <h2>‚ö†Ô∏è Translation Warnings</h2>
    <div class=\"card warnings\">
        <ul>"

/-- Part 0 of template chunk rc8. -/
def rc8p0 : String :=
"</ul>
    </div>
    
    <h2>üì∏ Screenshots</h2>
    <div class=\"grid-3\">
        <div class=\"card screenshot-container\">
            <h3>GPUI (Rust)</h3>
            <img src=\"screenshots/gpui.png\" alt=\"GPUI Screenshot\" class=\"screenshot\">
        </div>
        <div class=\"card screenshot-container\">
            <h3>ZapUI (Zig)</h3>
            <img src=\"screenshots/zapui.png\" alt=\"ZapUI Screenshot\" class=\"screenshot\">
        </div>
        <div class=\"card screenshot-c"

/-- Part 1 of template chunk rc8. -/
def rc8p1 : String :=
"ontainer\">
            <h3>Difference</h3>
            <img src=\"screenshots/diff.png\" alt=\"Diff\" class=\"screenshot\">
        </div>
    </div>
    
    <h2>üîÑ Animated Comparison</h2>
    <div class=\"card screenshot-container\">
        <img src=\"screenshots/toggle.gif\" alt=\"Toggle Animation\" class=\"screenshot\">
    </div>
    
    <h2>üìù Source Code</h2>
    <div class=\"grid\">
        <div class=\"card\">
            <h3>Rust (GPUI) - "

/-- Fixed template chunk rc8 of the source f-string. -/
def rc8 : String := rc8p0 ++ rc8p1

/-- Fixed template chunk rc9 of the source f-string. -/
def rc9 : String :=
".rs</h3>
            <pre class=\"rust\"><code>"

/-- Fixed template chunk rc10 of the source f-string. -/
def rc10 : String :=
"</code></pre>
        </div>
        <div class=\"card\">
            <h3>Zig (ZapUI) - "

/-- Fixed template chunk rc11 of the source f-string. -/
def rc11 : String :=
".zig</h3>
            <pre class=\"zig\"><code>"

/-- Fixed template chunk rc12 of the source f-string. -/
def rc12 : String :=
"</code></pre>
        </div>
    </div>
    
    <h2>üõ†Ô∏è Build Commands</h2>
    <div class=\"commands\">
        <code>\x23 Build for Windows</code>
        <code>make windows</code>
        <code></code>
        <code>\x23 Capture screenshots</code>
        <code>make capture-both EXAMPLE="

/-- Fixed template chunk rc13 of the source f-string. -/
def rc13 : String :=
"</code>
        <code></code>
        <code>\x23 Generate comparison</code>
        <code>make compare EXAMPLE="

/-- Fixed template chunk rc14 of the source f-string. -/
def rc14 : String :=
"</code>
    </div>
    
    <h2>üîó Links</h2>
    <ul>
        <li><a href=\"https://github.com/zed-industries/zed/blob/main/crates/gpui/examples/"

/-- Fixed template chunk rc15 of the source f-string. -/
def rc15 : String :=
".rs\" target=\"_blank\">Original GPUI Source</a></li>
        <li><a href=\""

/-- Fixed template chunk rc16 of the source f-string. -/
def rc16 : String :=
".zig\">ZapUI Port Source</a></li>
        <li><a href=\""

/-- Fixed template chunk rc17 of the source f-string. -/
def rc17 : String :=
".rs\">Local GPUI Copy</a></li>
    </ul>
</body>
</html>
"

/-- Fixed template chunk zc0 of the source f-string. -/
def zc0 : String :=
"//! "

/-- Fixed template chunk zc1 of the source f-string. -/
def zc1 : String :=
" - Port of GPUI\x27s "

/-- Part 0 of template chunk zc2. -/
def zc2p0 : String :=
".rs example

const std = @import(\"std\");
const zapui = @import(\"zapui\");
const freetype = @import(\"freetype\");

const d3d11 = zapui.renderer.d3d11_renderer.d3d11;
const D3D11Renderer = zapui.renderer.d3d11_renderer.D3D11Renderer;
const QuadInstance = zapui.renderer.d3d11_renderer.QuadInstance;
const SpriteInstance = zapui.renderer.d3d11_renderer.SpriteInstance;
const Win32 = zapui.platform.Win32Backend;

// Colors
fn rgb(hex: u24) [4]f32 \x7b
    return .\x7b
        @as(f32, @floa"

/-- Part 1 of template chunk zc2. -/
def zc2p1 : String :=
"tFromInt((hex >> 16) & 0xFF)) / 255.0,
        @as(f32, @floatFromInt((hex >> 8) & 0xFF)) / 255.0,
        @as(f32, @floatFromInt(hex & 0xFF)) / 255.0,
        1.0,
    \x7d;
\x7d
"

/-- Fixed template chunk zc2 of the source f-string. -/
def zc2 : String := zc2p0 ++ zc2p1

/-- Fixed template chunk zc3 of the source f-string. -/
def zc3 : String :=
"

// =====\x3d=====\x3d=====\x3d=====\x3d=====\x3d=====\x3d=====\x3d=====\x3d=====\x3d=====\x3d=====\x3d=====\x3d====
// "

/-- Fixed template chunk zc4 of the source f-string. -/
def zc4 : String :=
"
// =====\x3d=====\x3d=====\x3d=====\x3d=====\x3d=====\x3d=====\x3d=====\x3d=====\x3d=====\x3d=====\x3d=====\x3d====

const "

/-- Fixed template chunk zc5 of the source f-string. -/
def zc5 : String :=
" = struct \x7b
    // TODO: Add state fields from Rust struct

    fn render(self: *"

/-- Fixed template chunk zc6 of the source f-string. -/
def zc6 : String :=
", renderer: *D3D11Renderer, text_renderer: anytype) void \x7b
        _ = self;
        _ = text_renderer;
        
        // TODO: Port the render() implementation from "

/-- Part 0 of template chunk zc7. -/
def zc7p0 : String :=
".rs
        // 
        // GPUI patterns -> ZapUI:
        //   div().bg(rgb(0xNNNNNN))     -> renderer.clear(rgb(0xNNNNNN))
        //   div().size_8().bg(color)   -> quad(x, y, 32, color, border)
        //   .child(\"text\")             -> text_renderer.draw(renderer, \"text\", x, y, color)
        //   format!(\"...\", val)        -> std.fmt.bufPrint(&buf, \"...\", .\x7bval\x7d)
        
        renderer.clear(0.2, 0.2, 0.2, 1.0);
        
        // Example quad:
        // const quad"

/-- Part 1 of template chunk zc7. -/
def zc7p1 : String :=
"s = [_]QuadInstance\x7b
        //     quad(100, 100, 32, red, white),
        // \x7d;
        // renderer.drawQuads(&quads);
    \x7d
\x7d;

// Helper: div().size(s).bg(bg).border_1().border_dashed().rounded_md().border_color(border)
fn quad(x: f32, y: f32, size: f32, bg: [4]f32, border: [4]f32) QuadInstance \x7b
    return .\x7b
        .bounds = .\x7b x, y, size, size \x7d,
        .background_color = bg,
        .border_color = border,
        .border_widths = .\x7b 1, 1, 1, 1 \x7d,
        .corner_r"

/-- Part 2 of template chunk zc7. -/
def zc7p2 : String :=
"adii = .\x7b 6, 6, 6, 6 \x7d,
        .border_style = .\x7b 1, 0, 0, 0 \x7d, // dashed
        .content_mask = .\x7b 0, 0, 0, 0 \x7d,
    \x7d;
\x7d

// =====\x3d=====\x3d=====\x3d=====\x3d=====\x3d=====\x3d=====\x3d=====\x3d=====\x3d=====\x3d=====\x3d=====\x3d====
// Text Rendering (GPUI handles this internally)
// =====\x3d=====\x3d=====\x3d=====\x3d=====\x3d=====\x3d=====\x3d=====\x3d=====\x3d=====\x3d=====\x3d=====\x3d====

const TextRenderer = struct \x7b
    srv: *d3d11.ID3D11ShaderResourceView,
    glyphs: [128]Glyph,
    atlas_size: f32,

    const Glyph = struct \x7b"

/-- Part 3 of template chunk zc7. -/
def zc7p3 : String :=
" x: u32, y: u32, w: u32, h: u32, bx: i32, by: i32, adv: i32 \x7d;

    fn init(alloc: std.mem.Allocator, renderer: *D3D11Renderer) !TextRenderer \x7b
        const ft = try freetype.Library.init();
        defer ft.deinit();
        const face = try ft.initMemoryFace(@embedFile(\"LiberationSans-Regular.ttf\"), 0);
        defer face.deinit();
        try face.setPixelSizes(0, 20);

        const size: u32 = 512;
        var data = try alloc.alloc(u8, size * size);
        defer alloc"

/-- Part 4 of template chunk zc7. -/
def zc7p4 : String :=
".free(data);
        @memset(data, 0);

        var glyphs = [_]Glyph\x7b.\x7b .x = 0, .y = 0, .w = 0, .h = 0, .bx = 0, .by = 0, .adv = 0 \x7d\x7d ** 128;
        var px: u32 = 2;
        const py: u32 = 2;
        for (32..127) |c| \x7b
            const idx = face.getCharIndex(@intCast(c)) orelse continue;
            face.loadGlyph(idx, .\x7b .render = true \x7d) catch continue;
            const g = face.handle.*.glyph;
            const bmp = &g.*.bitmap;
            if (bmp.width > 0 and bm"

/-- Part 5 of template chunk zc7. -/
def zc7p5 : String :=
"p.rows > 0) \x7b
                const src: [*]const u8 = @ptrCast(bmp.buffer);
                const pitch: u32 = @intCast(if (bmp.pitch < 0) -bmp.pitch else bmp.pitch);
                for (0..bmp.rows) |row| \x7b
                    for (0..bmp.width) |col| \x7b
                        data[(py + row) * size + px + col] = src[row * pitch + col];
                    \x7d
                \x7d
                glyphs[c] = .\x7b
                    .x = px,
                    .y = py,
         "

/-- Part 6 of template chunk zc7. -/
def zc7p6 : String :=
"           .w = bmp.width,
                    .h = bmp.rows,
                    .bx = g.*.bitmap_left,
                    .by = g.*.bitmap_top,
                    .adv = @intCast(g.*.advance.x >> 6),
                \x7d;
                px += bmp.width + 2;
            \x7d else \x7b
                glyphs[c] = .\x7b .x = 0, .y = 0, .w = 0, .h = 0, .bx = 0, .by = 0, .adv = @intCast(g.*.advance.x >> 6) \x7d;
            \x7d
        \x7d

        var desc = std.mem.zeroes(d3d11.D3D11_TEXTURE2"

/-- Part 7 of template chunk zc7. -/
def zc7p7 : String :=
"D_DESC);
        desc.Width = size;
        desc.Height = size;
        desc.MipLevels = 1;
        desc.ArraySize = 1;
        desc.Format = .R8_UNORM;
        desc.SampleDesc.Count = 1;
        desc.Usage = .DEFAULT;
        desc.BindFlags = .\x7b .SHADER_RESOURCE = 1 \x7d;
        var sub = std.mem.zeroes(d3d11.D3D11_SUBRESOURCE_DATA);
        sub.pSysMem = data.ptr;
        sub.SysMemPitch = size;
        var tex: ?*d3d11.ID3D11Texture2D = null;
        _ = renderer.device.vtab"

/-- Part 8 of template chunk zc7. -/
def zc7p8 : String :=
"le.CreateTexture2D(renderer.device, &desc, &sub, @ptrCast(&tex));
        var srv_desc = std.mem.zeroes(d3d11.D3D11_SHADER_RESOURCE_VIEW_DESC);
        srv_desc.Format = .R8_UNORM;
        srv_desc.ViewDimension = ._SRV_DIMENSION_TEXTURE2D;
        srv_desc.Anonymous.Texture2D.MipLevels = 1;
        var srv: ?*d3d11.ID3D11ShaderResourceView = null;
        _ = renderer.device.vtable.CreateShaderResourceView(renderer.device, @ptrCast(tex), &srv_desc, @ptrCast(&srv));

        "

/-- Part 9 of template chunk zc7. -/
def zc7p9 : String :=
"return .\x7b .srv = srv.?, .glyphs = glyphs, .atlas_size = @floatFromInt(size) \x7d;
    \x7d

    fn draw(self: *TextRenderer, renderer: *D3D11Renderer, str: []const u8, cx: f32, baseline: f32, color: [4]f32) void \x7b
        var w: f32 = 0;
        for (str) |c| \x7b
            if (c < 128) w += @floatFromInt(self.glyphs[c].adv);
        \x7d

        var sprites: [64]SpriteInstance = undefined;
        var n: usize = 0;
        var x = cx - w / 2;
        for (str) |c| \x7b
            if (c"

/-- Part 10 of template chunk zc7. -/
def zc7p10 : String :=
" >= 128) continue;
            const g = self.glyphs[c];
            if (g.w > 0) \x7b
                const gw: f32 = @floatFromInt(g.w);
                const gh: f32 = @floatFromInt(g.h);
                sprites[n] = .\x7b
                    .bounds = .\x7b x + @as(f32, @floatFromInt(g.bx)), baseline - @as(f32, @floatFromInt(g.by)), gw, gh \x7d,
                    .uv_bounds = .\x7b
                        @as(f32, @floatFromInt(g.x)) / self.atlas_size,
                        @as(f32,"

/-- Part 11 of template chunk zc7. -/
def zc7p11 : String :=
" @floatFromInt(g.y)) / self.atlas_size,
                        gw / self.atlas_size,
                        gh / self.atlas_size,
                    \x7d,
                    .color = color,
                    .content_mask = .\x7b 0, 0, 0, 0 \x7d,
                \x7d;
                n += 1;
            \x7d
            x += @floatFromInt(g.adv);
        \x7d
        if (n > 0) renderer.drawSprites(sprites[0..n], self.srv, true);
    \x7d
\x7d;

// =====\x3d=====\x3d=====\x3d=====\x3d=====\x3d=====\x3d=====\x3d==="

/-- Part 12 of template chunk zc7. -/
def zc7p12 : String :=
"=====\x3d=====\x3d=====\x3d=====\x3d=====\x3d=
// Main
// =====\x3d=====\x3d=====\x3d=====\x3d=====\x3d=====\x3d=====\x3d=====\x3d=====\x3d=====\x3d=====\x3d=====\x3d====

pub fn main() !void \x7b
    var platform = try Win32.init();
    defer platform.deinit();

    const window = try Win32.createWindow(&platform, .\x7b
        .width = "

/-- Fixed template chunk zc7 of the source f-string. -/
def zc7 : String := zc7p0 ++ zc7p1 ++ zc7p2 ++ zc7p3 ++ zc7p4 ++ zc7p5 ++ zc7p6 ++ zc7p7 ++ zc7p8 ++ zc7p9 ++ zc7p10 ++ zc7p11 ++ zc7p12

/-- Fixed template chunk zc8 of the source f-string. -/
def zc8 : String :=
",
        .height = "

/-- Fixed template chunk zc9 of the source f-string. -/
def zc9 : String :=
",
        .title = \""

/-- Fixed template chunk zc10 of the source f-string. -/
def zc10 : String :=
"\",
    \x7d);
    defer window.destroy();

    var renderer = try D3D11Renderer.init(std.heap.page_allocator, window.hwnd.?, "

/-- Fixed template chunk zc11 of the source f-string. -/
def zc11 : String :=
", "

/-- Fixed template chunk zc12 of the source f-string. -/
def zc12 : String :=
");
    defer renderer.deinit();

    var text_renderer = try TextRenderer.init(std.heap.page_allocator, &renderer);

    var state = "

/-- Fixed template chunk zc13 of the source f-string. -/
def zc13 : String :=
"\x7b\x7d;

    while (!window.shouldClose()) \x7b
        for (window.pollEvents()) |e| \x7b
            switch (e) \x7b
                .key => |k| if (k.key == .escape) return,
                .resize => |r| renderer.resize(r.width, r.height) catch \x7b\x7d,
                else => \x7b\x7d,
            \x7d
        \x7d

        renderer.beginFrame();
        state.render(&renderer, &text_renderer);
        renderer.present(true);
    \x7d
\x7d
"

/-- Python `str.title()` on ASCII: a letter is uppercased when the previous
character is not a letter, lowercased otherwise; other characters pass through.
(Python's Unicode-cased handling coincides on the ASCII example names.) -/
def titleCaseGo : Bool → List Char → List Char
  | _, [] => []
  | prevAlpha, c :: rest =>
    if c.isAlpha then (if prevAlpha then c.toLower else c.toUpper) :: titleCaseGo true rest
    else c :: titleCaseGo false rest

/-- Python `name.replace('_', ' ').title()` — the display title both generators derive
from the example name. -/
def pyTitle (name : String) : String :=
  String.mk (titleCaseGo false (name.data.map (fun c => if c = '_' then ' ' else c)))

/-- Python `str.split('_')`: split at every underscore, keeping empty parts
(`''.split('_') == ['']`). -/
def splitUnderscore : List Char → List (List Char)
  | [] => [[]]
  | c :: rest =>
    if c = '_' then [] :: splitUnderscore rest
    else
      match splitUnderscore rest with
      | [] => [[c]]
      | w :: ws => (c :: w) :: ws

/-- Python `str.capitalize()` on ASCII: first char uppercased, rest lowercased. -/
def pyCapitalize : List Char → List Char
  | [] => []
  | c :: rest => c.toUpper :: rest.map Char.toLower

/-- Python `''.join(word.capitalize() for word in name.split('_'))`. -/
def className (name : String) : String :=
  String.mk ((splitUnderscore name.data).map pyCapitalize).flatten

/-- Python whitespace characters stripped by `int(str, base)` (ASCII subset). -/
def isPySpace (c : Char) : Bool :=
  c == ' ' || c == '\t' || c == '\n' || c == '\r' || c == '\x0b' || c == '\x0c'

/-- Strip leading and trailing whitespace. -/
def pyTrim (cs : List Char) : List Char :=
  ((cs.dropWhile isPySpace).reverse.dropWhile isPySpace).reverse

/-- Value of one hex digit of `[0-9a-fA-F]` (48, 87 and 55 are the code points
of `0`, `a` and `A` shifted so that `a`/`A` land on value 10). -/
def hexVal (c : Char) : Option Nat :=
  if c.isDigit then some (c.toNat - 48)
  else if 'a' ≤ c && c ≤ 'f' then some (c.toNat - 87)
  else if 'A' ≤ c && c ≤ 'F' then some (c.toNat - 55)
  else none

/-- Value of a nonempty all-hex-digit string. -/
def hexNat (ds : List Char) : Option Nat :=
  if ds.isEmpty then none
  else ds.foldl (fun acc c => acc.bind (fun n => (hexVal c).map (fun v => 16 * n + v))) (some 0)

/-- Models Python `int(s, 16)` on the ≤ 2-character slices the generator feeds
it: optional surrounding whitespace, optional sign, then nonempty hex digits.
(The `0x`/`0X` prefix and digit-group underscores of full `int` syntax need at
least three characters to change the outcome, which a 2-char slice cannot hold.)
`none` models a raised `ValueError`. -/
def pyIntHex (cs : List Char) : Option Int :=
  match pyTrim cs with
  | '+' :: r => (hexNat r).map (fun n => (n : Int))
  | '-' :: r => (hexNat r).map (fun n => -(n : Int))
  | r => (hexNat r).map (fun n => (n : Int))

/-- The try-block of the hex-color branch of `generate_zig_skeleton`:
`int(color[0:2], 16)`, `int(color[2:4], 16)`, `int(color[4:6], 16)` all succeed.
The three channel floats the Python code computes from these are discarded
by the source itself, so only success or failure is observable. -/
def hexSlicesOk (cs : List Char) : Bool :=
  ((pyIntHex (cs.take 2)).isSome && (pyIntHex ((cs.drop 2).take 2)).isSome)
    && (pyIntHex ((cs.drop 4).take 2)).isSome

/-- The color line emitted for the named token `green`: the fixed mid-intensity
channel value 0.5 of `gpui::green()`, not the 128/255 of pure (0,128,0). -/
def greenLine : String := "const green = [4]f32\x7b 0, 0.5, 0, 1 \x7d; // gpui::green()"

/-- The body of the color-definition loop of `generate_zig_skeleton`: the line
appended for one color token, `none` when nothing is appended (the silently
swallowed hex-parse failure: the source's `except: pass`). -/
def colorDef (color : String) : Option String :=
  if color = "red" then some ("const red = [4]f32\x7b 1, 0, 0, 1 \x7d;")
  else if color = "green" then some greenLine
  else if color = "blue" then some ("const blue = [4]f32\x7b 0, 0, 1, 1 \x7d;")
  else if color = "yellow" then some ("const yellow = [4]f32\x7b 1, 1, 0, 1 \x7d;")
  else if color = "black" then some ("const black = [4]f32\x7b 0, 0, 0, 1 \x7d;")
  else if color = "white" then some ("const white = [4]f32\x7b 1, 1, 1, 1 \x7d;")
  else if hexSlicesOk color.data then some ("// rgb(0x" ++ color ++ ")")
  else none

/-- Python `sorted` on strings: ascending lexicographic (code-point) order. -/
def sortColors (l : List String) : List String := List.insertionSort (· ≤ ·) l

/-- Python `sep.join(parts)`. -/
def joinSep (sep : List Char) : List (List Char) → List Char
  | [] => []
  | [x] => x
  | x :: y :: t => x ++ sep ++ joinSep sep (y :: t)

/-- The `color_defs` list: one emitted line per sorted color that produces one. -/
def colorDefs (colors : List String) : List String := (sortColors colors).filterMap colorDef

/-- The source line `colors_section = '\n'.join(color_defs) if color_defs else "// Define colors as needed"`. -/
def colorsSection (colors : List String) : List Char :=
  if (colorDefs colors).isEmpty then ("// Define colors as needed".data)
  else joinSep ("\n".data) ((colorDefs colors).map String.data)

/-- Models `generate_zig_skeleton(name, rust_code, analysis)`: the f-string template
with its substitutions written out in template order (`rust_code` is a
parameter of the Python function but never referenced by the template). -/
def zigSkeleton (name rust_code : String) (a : Analysis) : List Char :=
  zc0.data ++ (pyTitle name).data ++ zc1.data ++ name.data ++ zc2.data
    ++ colorsSection a.colors ++ zc3.data ++ (className name).data ++ zc4.data
    ++ (className name).data ++ zc5.data ++ (className name).data ++ zc6.data
    ++ name.data ++ zc7.data ++ (toString a.window_size.1).data ++ zc8.data
    ++ (toString a.window_size.2).data ++ zc9.data ++ (pyTitle name).data ++ zc10.data
    ++ (toString a.window_size.1).data ++ zc11.data ++ (toString a.window_size.2).data
    ++ zc12.data ++ (className name).data ++ zc13.data

/-- The skeleton text as the flat list of its template pieces (the split
sub-literals of the fixed chunks interleaved with the substituted values), used
to evaluate substring absence piecewise. -/
def zigSkeletonPieces (name rust_code : String) (a : Analysis) : List (List Char) :=
  [zc0.data,
   (pyTitle name).data,
   zc1.data,
   name.data,
   zc2p0.data,
   zc2p1.data,
   colorsSection a.colors,
   zc3.data,
   (className name).data,
   zc4.data,
   (className name).data,
   zc5.data,
   (className name).data,
   zc6.data,
   name.data,
   zc7p0.data,
   zc7p1.data,
   zc7p2.data,
   zc7p3.data,
   zc7p4.data,
   zc7p5.data,
   zc7p6.data,
   zc7p7.data,
   zc7p8.data,
   zc7p9.data,
   zc7p10.data,
   zc7p11.data,
   zc7p12.data,
   (toString a.window_size.1).data,
   zc8.data,
   (toString a.window_size.2).data,
   zc9.data,
   (pyTitle name).data,
   zc10.data,
   (toString a.window_size.1).data,
   zc11.data,
   (toString a.window_size.2).data,
   zc12.data,
   (className name).data,
   zc13.data]

/-- Piecewise evaluation of `containsSub` over a piece list: a match either
fits inside the current piece extended by the next `|pat| - 1` characters, or
starts in a later piece. -/
def chunkScan (pat : List Char) : List (List Char) → Bool
  | [] => false
  | x :: t => containsSub pat (x ++ List.take (pat.length - 1) t.flatten) || chunkScan pat t

/-- One escaped character of `html.escape(s)` (quote=True). -/
def escChar (c : Char) : List Char :=
  if c = '&' then ("&amp;".data)
  else if c = '<' then ("&lt;".data)
  else if c = '>' then ("&gt;".data)
  else if c = '"' then ("&quot;".data)
  else if c = '\x27' then ("&\x23x27;".data)
  else [c]

/-- Models `html.escape(s)`: the five sequential `str.replace` calls of the library
function touch disjoint characters whose replacements are never rewritten
again, so they equal this single character-wise pass. -/
def escapeHtml (s : String) : List Char := s.data.flatMap escChar

/-- Python `str.splitlines()` (used only for the line-count statistics):
universal line breaks, with `\r\n` as a single break and no empty final line. -/
def isLineBreakChar (c : Char) : Bool :=
  c == '\n' || c == '\r' || c == '\x0b' || c == '\x0c'
    || c == '\x1c' || c == '\x1d' || c == '\x1e' || c == '\x85' || c == '\u2028' || c == '\u2029'

/-- Worker for `splitLines`, carrying the current unfinished line. -/
def splitLinesGo : List Char → List Char → List (List Char)
  | [], cur => if cur.isEmpty then [] else [cur]
  | '\r' :: '\n' :: rest, cur => cur :: splitLinesGo rest []
  | c :: rest, cur =>
    if isLineBreakChar c then cur :: splitLinesGo rest []
    else splitLinesGo rest (cur ++ [c])

/-- Python `s.splitlines()`. -/
def splitLines (s : String) : List (List Char) := splitLinesGo s.data []

/-- One `<li>` entry of the warnings list. -/
def liItem (w : String) : List Char := "<li>".data ++ escapeHtml w ++ "</li>".data

/-- The source line `warnings_html = ''.join(f'<li>{html.escape(w)}</li>' for w in set(analysis['warnings']))`.
Python iterates the set in unspecified hash order; this model uses one fixed
duplicate-free enumeration (`List.dedup`), and every property proved about it
below is invariant under reordering. -/
def warningsHtml (ws : List String) : List Char := (ws.dedup.map liItem).flatten

/-- The fallback item used when `warnings_html` is empty. -/
def successItem : List Char := "<li class=\"success\">None - straightforward port!</li>".data

/-- The warnings slot of the report: `warnings_html` or, when it is the empty
string, the success item (source lines 106-108). -/
def warnBlock (ws : List String) : List Char :=
  if (warningsHtml ws).isEmpty then successItem else warningsHtml ws

/-- Models `generate_html_report(name, rust_code, zig_code, analysis)`: the HTML
f-string template with its substitutions written out in template order. -/
def htmlReport (name rust_code zig_code : String) (a : Analysis) : List Char :=
  rc0.data ++ (pyTitle name).data ++ rc1.data ++ (pyTitle name).data ++ rc2.data
    ++ (toString (splitLines rust_code).length).data ++ rc3.data
    ++ (toString (splitLines zig_code).length).data ++ rc4.data
    ++ (toString a.colors.length).data ++ rc5.data
    ++ (toString a.window_size.1).data ++ rc6.data ++ (toString a.window_size.2).data
    ++ rc7.data ++ warnBlock a.warnings ++ rc8.data ++ name.data ++ rc9.data
    ++ escapeHtml rust_code ++ rc10.data ++ name.data ++ rc11.data
    ++ escapeHtml zig_code ++ rc12.data ++ name.data ++ rc13.data ++ name.data
    ++ rc14.data ++ name.data ++ rc15.data ++ name.data ++ rc16.data ++ name.data
    ++ rc17.data

/-- Number of non-overlapping occurrences of `pat` (scanning left to right,
skipping over each match) — used to count the `<li>` items of the warnings
block. -/
def countSub (pat : List Char) : List Char → Nat
  | [] => 0
  | c :: rest =>
    if pat.isPrefixOf (c :: rest) then 1 + countSub pat (List.drop (pat.length - 1) rest)
    else countSub pat rest
termination_by l => l.length
decreasing_by
  all_goals simp
  omega

/-- Concrete analysis whose colors set holds the hex token `336699`. -/
def exAnalysis336699 : Analysis :=
  { warnings := [], colors := ["336699"], window_size := (500, 500), title := "ZapUI" }

/-- Concrete analysis whose colors set holds a token whose hex parse fails. -/
def exAnalysisZZ : Analysis :=
  { warnings := [], colors := ["zz"], window_size := (500, 500), title := "ZapUI" }

/-- Concrete analysis with one warning message. -/
def exAnalysisWarn : Analysis :=
  { warnings := ["Event handlers need manual implementation"], colors := [],
    window_size := (500, 500), title := "ZapUI" }

/-- Concrete analysis with no warnings. -/
def exAnalysisNoWarn : Analysis :=
  { warnings := [], colors := [], window_size := (500, 500), title := "ZapUI" }

/-- Concrete analysis whose colors set holds the named token `green`. -/
def exAnalysisGreen : Analysis :=
  { warnings := [], colors := ["green"], window_size := (500, 500), title := "ZapUI" }

/-- Colors `["red", "blue"]` in one insertion order. -/
def exAnalysisRB1 : Analysis :=
  { warnings := [], colors := ["red", "blue"], window_size := (500, 500), title := "ZapUI" }

/-- Colors `["red", "blue"]` in the other insertion order. -/
def exAnalysisRB2 : Analysis :=
  { warnings := [], colors := ["blue", "red"], window_size := (500, 500), title := "ZapUI" }

/-- A source text whose size construct is matched by the regex with a
309-digit first capture: `float` of that capture overflows to `inf`, so the
`int(float(...))` call in `analyze_example` raises OverflowError (there is no
try/except around it). -/
def overflowSrc : String :=
  "size(px(" ++ String.mk (List.replicate 309 ('9')) ++ "px(5)"
/-! ### General lemmas about the string utilities -/

theorem isPrefixOf_eq_true_iff : ∀ (l m : List Char), (l.isPrefixOf m = true ↔ ∃ t, m = l ++ t)
  | [], m => by simp [List.isPrefixOf]
  | a :: l, [] => by simp [List.isPrefixOf]
  | a :: l, b :: m => by
    simp only [List.isPrefixOf, Bool.and_eq_true, beq_iff_eq, List.cons_append, List.cons.injEq,
      isPrefixOf_eq_true_iff l m]
    constructor
    · rintro ⟨rfl, t, rfl⟩
      exact ⟨t, rfl, rfl⟩
    · rintro ⟨t, rfl, rfl⟩
      exact ⟨rfl, t, rfl⟩

theorem containsSub_eq_true_iff : ∀ (pat m : List Char),
    (containsSub pat m = true ↔ ∃ a b, m = a ++ (pat ++ b))
  | pat, [] => by
    cases pat with
    | nil => simp [containsSub]
    | cons c t =>
      simp only [containsSub, List.isEmpty_cons]
      constructor
      · rintro ⟨⟩
      · rintro ⟨a, b, h⟩
        exact absurd h.symm (by simp)
  | pat, c :: m => by
    simp only [containsSub, Bool.or_eq_true, isPrefixOf_eq_true_iff,
      containsSub_eq_true_iff pat m]
    constructor
    · rintro (⟨t, ht⟩ | ⟨a, b, hab⟩)
      · exact ⟨[], t, by simpa using ht⟩
      · exact ⟨c :: a, b, by simp [hab]⟩
    · rintro ⟨a, b, h⟩
      cases a with
      | nil => exact Or.inl ⟨b, by simpa using h⟩
      | cons x a' =>
        rw [List.cons_append] at h
        injection h with h1 h2
        exact Or.inr ⟨a', b, h2⟩

theorem containsSub_append_r (x a m : List Char) (h : containsSub x m = true) :
    containsSub x (a ++ m) = true := by
  obtain ⟨a', b, rfl⟩ := (containsSub_eq_true_iff x m).mp h
  exact (containsSub_eq_true_iff x _).mpr ⟨a ++ a', b, by simp⟩

theorem containsSub_append_l (x m b : List Char) (h : containsSub x m = true) :
    containsSub x (m ++ b) = true := by
  obtain ⟨a', b', rfl⟩ := (containsSub_eq_true_iff x m).mp h
  exact (containsSub_eq_true_iff x _).mpr ⟨a', b' ++ b, by simp⟩

theorem containsSub_self (x : List Char) : containsSub x x = true :=
  (containsSub_eq_true_iff x x).mpr ⟨[], [], by simp⟩

theorem data_append_eq (a b : String) : (a ++ b).data = a.data ++ b.data := by
  cases a
  cases b
  rfl

theorem containsSub_append_eq (pat a b : List Char) :
    containsSub pat (a ++ b)
      = (containsSub pat (a ++ List.take (pat.length - 1) b) || containsSub pat b) := by
  rw [Bool.eq_iff_iff, Bool.or_eq_true, containsSub_eq_true_iff, containsSub_eq_true_iff,
    containsSub_eq_true_iff]
  constructor
  · rintro ⟨x, y, hxy⟩
    rcases List.append_eq_append_iff.mp hxy with ⟨a', ha1, ha2⟩ | ⟨c', hc1, hc2⟩
    · exact Or.inr ⟨a', y, ha2⟩
    · rcases List.append_eq_append_iff.mp hc2 with ⟨p', hp1, hp2⟩ | ⟨q, hq1, hq2⟩
      · exact Or.inl ⟨x, p' ++ List.take (pat.length - 1) b, by
          rw [hc1, hp1]
          simp [List.append_assoc]⟩
      · by_cases hc' : c' = []
        · subst hc'
          refine Or.inr ⟨[], y, ?_⟩
          simp at hq1
          rw [hq2, hq1]
          rfl
        · have hlen : q.length ≤ pat.length - 1 := by
            have hq : pat.length = c'.length + q.length := by
              rw [hq1, List.length_append]
            have hcpos : 0 < c'.length := List.length_pos.mpr hc'
            omega
          have htake : List.take (pat.length - 1) b
              = q ++ List.take (pat.length - 1 - q.length) y := by
            rw [hq2, List.take_append_eq_append_take, List.take_of_length_le hlen]
          refine Or.inl ⟨x, List.take (pat.length - 1 - q.length) y, ?_⟩
          rw [hc1, htake, hq1]
          simp [List.append_assoc]
  · rintro (⟨x, y, hxy⟩ | ⟨x, y, hxy⟩)
    · refine ⟨x, y ++ List.drop (pat.length - 1) b, ?_⟩
      have hsplit : a ++ b
          = (a ++ List.take (pat.length - 1) b) ++ List.drop (pat.length - 1) b := by
        rw [List.append_assoc, List.take_append_drop]
      rw [hsplit, hxy]
      simp [List.append_assoc]
    · exact ⟨a ++ x, y, by rw [hxy]; simp [List.append_assoc]⟩

theorem chunkScan_eq (pat : List Char) (hpat : pat ≠ []) :
    ∀ pieces : List (List Char), containsSub pat pieces.flatten = chunkScan pat pieces
  | [] => by
    cases pat with
    | nil => exact absurd rfl hpat
    | cons c p => rfl
  | x :: t => by
    rw [List.flatten_cons, containsSub_append_eq pat x t.flatten, chunkScan_eq pat hpat t]
    rfl

theorem containsSub_joinSep (sep : List Char) :
    ∀ (L : List (List Char)) (x : List Char), x ∈ L → containsSub x (joinSep sep L) = true
  | [], x, hx => absurd hx (List.not_mem_nil x)
  | [z], x, hx => by
    rcases List.mem_singleton.mp hx with rfl
    simpa [joinSep] using containsSub_self x
  | z :: w :: t, x, hx => by
    rcases List.mem_cons.mp hx with rfl | hx
    · show containsSub x (x ++ sep ++ joinSep sep (w :: t)) = true
      rw [List.append_assoc]
      exact containsSub_append_l _ _ _ (containsSub_self x)
    · show containsSub x (z ++ sep ++ joinSep sep (w :: t)) = true
      rw [List.append_assoc]
      exact containsSub_append_r _ z _
        (containsSub_append_r _ sep _ (containsSub_joinSep sep (w :: t) x hx))

theorem containsSub_flatten_of_mem :
    ∀ (L : List (List Char)) (x : List Char), x ∈ L → containsSub x L.flatten = true
  | [], x, hx => absurd hx (List.not_mem_nil x)
  | z :: t, x, hx => by
    rcases List.mem_cons.mp hx with rfl | hx
    · rw [List.flatten_cons]
      exact containsSub_append_l _ _ _ (containsSub_self x)
    · rw [List.flatten_cons]
      exact containsSub_append_r _ _ _ (containsSub_flatten_of_mem t x hx)

theorem takeWhile_dropWhile_of_all {p : Char → Bool} :
    ∀ {l : List Char}, l.all p = true → l.takeWhile p = l ∧ l.dropWhile p = []
  | [], _ => ⟨rfl, rfl⟩
  | c :: l, h => by
    rw [List.all_cons, Bool.and_eq_true] at h
    obtain ⟨hc, hl⟩ := h
    have ih := takeWhile_dropWhile_of_all (l := l) hl
    simp [List.takeWhile_cons, List.dropWhile_cons, hc, ih.1, ih.2]

theorem takeWhile_dropWhile_append {p : Char → Bool} {c : Char} (hc : p c = false) :
    ∀ {l : List Char} (r : List Char), l.all p = true →
      (l ++ c :: r).takeWhile p = l ∧ (l ++ c :: r).dropWhile p = c :: r
  | [], r, _ => by simp [List.takeWhile_cons, List.dropWhile_cons, hc]
  | d :: l, r, h => by
    rw [List.all_cons, Bool.and_eq_true] at h
    obtain ⟨hd, hl⟩ := h
    have ih := takeWhile_dropWhile_append hc (l := l) r hl
    simp [List.takeWhile_cons, List.dropWhile_cons, hd, ih.1, ih.2]

theorem all_takeWhile (p : Char → Bool) : ∀ (l : List Char), (l.takeWhile p).all p = true
  | [] => rfl
  | c :: l => by
    by_cases hc : p c = true
    · simp [List.takeWhile_cons, hc, all_takeWhile p l]
    · simp [List.takeWhile_cons, hc]

theorem eq_cons_of_head? {l : List Char} {c : Char} (h : l.head? = some c) : l = c :: l.tail := by
  cases l with
  | nil => exact absurd h (by simp)
  | cons a t =>
    injection h with h'
    rw [← h']
    rfl

/-! ### The warnings table -/

theorem foldl_filter_warn (pred : Pat × String → Bool) :
    ∀ (l : List (Pat × String)) (init : List String),
      l.foldl (fun acc r => if pred r then acc ++ [r.2] else acc) init
        = init ++ (l.filter pred).map Prod.snd
  | [], init => by simp
  | r :: l, init => by
    by_cases hr : pred r = true
    · simp [List.foldl_cons, hr, foldl_filter_warn pred l (init ++ [r.2]), List.filter_cons]
    · simp [List.foldl_cons, hr, foldl_filter_warn pred l init, List.filter_cons]

/-! ### The color scans -/

theorem mem_setAdd {l : List String} {x y : String} (h : x ∈ setAdd l y) : x ∈ l ∨ x = y := by
  unfold setAdd at h
  by_cases hy : y ∈ l
  · rw [if_pos hy] at h
    exact Or.inl h
  · rw [if_neg hy] at h
    rcases List.mem_append.mp h with h | h
    · exact Or.inl h
    · exact Or.inr (List.mem_singleton.mp h)

theorem mem_foldl_setAdd_hex :
    ∀ (l : List (List Char)) (acc : List String) (x : String),
      x ∈ l.foldl (fun acc h => setAdd acc (String.mk h)) acc →
        x ∈ acc ∨ ∃ h ∈ l, x = String.mk h
  | [], _, _, hx => Or.inl hx
  | h :: l, acc, x, hx => by
    rcases mem_foldl_setAdd_hex l _ x hx with hx' | ⟨h', hh', rfl⟩
    · rcases mem_setAdd hx' with hx'' | rfl
      · exact Or.inl hx''
      · exact Or.inr ⟨h, List.mem_cons_self h l, rfl⟩
    · exact Or.inr ⟨h', List.mem_cons_of_mem h hh', rfl⟩

theorem mem_foldl_setAdd_named :
    ∀ (l : List (List Char)) (acc : List String) (x : String),
      x ∈ l.foldl
        (fun acc w => if String.mk w ∈ namedColors then setAdd acc (String.mk w) else acc) acc →
        x ∈ acc ∨ x ∈ namedColors
  | [], _, _, hx => Or.inl hx
  | w :: l, acc, x, hx => by
    rcases mem_foldl_setAdd_named l _ x hx with hx' | hn
    · change x ∈ (if String.mk w ∈ namedColors then setAdd acc (String.mk w) else acc) at hx'
      by_cases hw : String.mk w ∈ namedColors
      · rw [if_pos hw] at hx'
        rcases mem_setAdd hx' with hx'' | rfl
        · exact Or.inl hx''
        · exact Or.inr hw
      · rw [if_neg hw] at hx'
        exact Or.inl hx'
    · exact Or.inr hn

theorem tryRgbHex_eq_some {cs h after : List Char} (heq : tryRgbHex cs = some (h, after)) :
    h ≠ [] ∧ h.all isHexDig = true ∧ cs = "rgb(0x".data ++ (h ++ (')' :: after)) := by
  unfold tryRgbHex at heq
  by_cases hp : "rgb(0x".data.isPrefixOf cs = true
  case neg =>
    rw [if_neg hp] at heq
    exact absurd heq (by simp)
  rw [if_pos hp] at heq
  obtain ⟨t, rfl⟩ := (isPrefixOf_eq_true_iff _ cs).mp hp
  have hdrop : List.drop 6 ("rgb(0x".data ++ t) = t := by
    have h6 : ("rgb(0x".data).length = 6 := rfl
    rw [← h6, List.drop_left]
  rw [hdrop] at heq
  by_cases hcond : (((t.dropWhile isHexDig).head? == some ')')
      && !(t.takeWhile isHexDig).isEmpty) = true
  case neg =>
    rw [if_neg hcond] at heq
    exact absurd heq (by simp)
  rw [if_pos hcond] at heq
  rw [Bool.and_eq_true] at hcond
  obtain ⟨hhead, hne⟩ := hcond
  have hhead' : (t.dropWhile isHexDig).head? = some ')' := eq_of_beq hhead
  have hnil : (t.takeWhile isHexDig) ≠ [] := by
    intro hnil
    rw [hnil] at hne
    exact absurd hne (by simp)
  injection heq with heq'
  have h1 : t.takeWhile isHexDig = h := congrArg Prod.fst heq'
  have h2 : (t.dropWhile isHexDig).tail = after := congrArg Prod.snd heq'
  subst h1
  subst h2
  refine ⟨hnil, all_takeWhile _ t, ?_⟩
  have hdw : t.dropWhile isHexDig = ')' :: (t.dropWhile isHexDig).tail :=
    eq_cons_of_head? hhead'
  have ht : t.takeWhile isHexDig ++ t.dropWhile isHexDig = t :=
    List.takeWhile_append_dropWhile isHexDig t
  rw [hdw] at ht
  exact congrArg (fun l => "rgb(0x".data ++ l) ht.symm

theorem hexScanGo_sound :
    ∀ (fuel : Nat) (cs h : List Char), h ∈ hexScanGo fuel cs →
      h ≠ [] ∧ h.all isHexDig = true
        ∧ containsSub ("rgb(0x".data ++ (h ++ [')'])) cs = true
  | 0, _, h, hx => absurd hx (List.not_mem_nil h)
  | _ + 1, [], h, hx => absurd hx (List.not_mem_nil h)
  | fuel + 1, c :: rest, h, hx => by
    rw [hexScanGo] at hx
    cases htry : tryRgbHex (c :: rest) with
    | some pr =>
      obtain ⟨h0, after⟩ := pr
      rw [htry] at hx
      obtain ⟨hne, hall, hshape⟩ := tryRgbHex_eq_some htry
      rcases List.mem_cons.mp hx with rfl | hx
      · refine ⟨hne, hall, ?_⟩
        rw [hshape]
        exact (containsSub_eq_true_iff _ _).mpr ⟨[], after, by simp⟩
      · obtain ⟨hne', hall', hsub⟩ := hexScanGo_sound fuel after h hx
        refine ⟨hne', hall', ?_⟩
        rw [hshape]
        obtain ⟨a, b, rfl⟩ := (containsSub_eq_true_iff _ after).mp hsub
        exact (containsSub_eq_true_iff _ _).mpr
          ⟨"rgb(0x".data ++ (h0 ++ (')' :: a)), b, by simp⟩
    | none =>
      rw [htry] at hx
      obtain ⟨hne', hall', hsub⟩ := hexScanGo_sound fuel rest h hx
      exact ⟨hne', hall', containsSub_append_r _ [c] rest hsub⟩

/-! ### Containment in the generated documents -/

/-- Character form of the `<li>` opener, for unfolding. -/
theorem li_open_chars : "<li>".data = '<' :: 'l' :: 'i' :: '>' :: [] := rfl

/-- Character form of `</li>` prepended to a tail. -/
theorem li_close_cons (u : List Char) :
    "</li>".data ++ u = '<' :: '/' :: 'l' :: 'i' :: '>' :: u := rfl

theorem colorDef_in_skeleton (name rust : String) (a : Analysis) (c line : String)
    (hc : c ∈ a.colors) (hdef : colorDef c = some line) :
    containsSub line.data (zigSkeleton name rust a) = true := by
  have hcs : c ∈ sortColors a.colors :=
    ((List.perm_insertionSort (· ≤ ·) a.colors).mem_iff).mpr hc
  have hmem : line ∈ colorDefs a.colors := List.mem_filterMap.mpr ⟨c, hcs, hdef⟩
  have hne : (colorDefs a.colors).isEmpty = false := by
    cases hd : colorDefs a.colors with
    | nil => rw [hd] at hmem; exact absurd hmem (List.not_mem_nil _)
    | cons _ _ => rfl
  have hsec : containsSub line.data (colorsSection a.colors) = true := by
    unfold colorsSection
    simp only [hne, Bool.false_eq_true, if_false]
    exact containsSub_joinSep _ _ _ (List.mem_map_of_mem String.data hmem)
  simp only [zigSkeleton, List.append_assoc]
  iterate 5 apply containsSub_append_r
  exact containsSub_append_l _ _ _ hsec

theorem warningsHtml_ne_nil {ws : List String} {w : String} (hw : w ∈ ws) :
    warningsHtml ws ≠ [] := by
  have hd : w ∈ ws.dedup := List.mem_dedup.mpr hw
  obtain ⟨l1, l2, hsplit⟩ := List.append_of_mem hd
  intro hnil
  unfold warningsHtml at hnil
  rw [hsplit] at hnil
  simp [liItem, li_open_chars] at hnil

theorem warnBlock_of_mem {ws : List String} {w : String} (hw : w ∈ ws) :
    containsSub (liItem w) (warnBlock ws) = true := by
  have hne : (warningsHtml ws).isEmpty = false := by
    cases h : warningsHtml ws with
    | nil => exact absurd h (warningsHtml_ne_nil hw)
    | cons _ _ => rfl
  unfold warnBlock
  simp only [hne, Bool.false_eq_true, if_false]
  exact containsSub_flatten_of_mem _ _ (List.mem_map_of_mem liItem (List.mem_dedup.mpr hw))

theorem warnBlock_in_report (name rust zg : String) (a : Analysis) (x : List Char)
    (h : containsSub x (warnBlock a.warnings) = true) :
    containsSub x (htmlReport name rust zg a) = true := by
  simp only [htmlReport, List.append_assoc]
  iterate 15 apply containsSub_append_r
  exact containsSub_append_l _ _ _ h

/-! ### Counting the warning items -/

theorem escapeHtml_ne_lt (w : String) : ∀ c ∈ escapeHtml w, c ≠ '<' := by
  intro c hc
  unfold escapeHtml at hc
  obtain ⟨d, _, hcd⟩ := List.mem_flatMap.mp hc
  unfold escChar at hcd
  split_ifs at hcd with h1 h2 h3 h4 h5
  · exact (by decide : ∀ x ∈ "&amp;".data, x ≠ '<') c hcd
  · exact (by decide : ∀ x ∈ "&lt;".data, x ≠ '<') c hcd
  · exact (by decide : ∀ x ∈ "&gt;".data, x ≠ '<') c hcd
  · exact (by decide : ∀ x ∈ "&quot;".data, x ≠ '<') c hcd
  · exact (by decide : ∀ x ∈ "&\x23x27;".data, x ≠ '<') c hcd
  · rcases List.mem_singleton.mp hcd with rfl
    exact h2

theorem countSub_li_pass {t u : List Char} (ht : ∀ c ∈ t, c ≠ '<') :
    countSub ("<li>").data (t ++ u) = countSub ("<li>").data u := by
  induction t with
  | nil => simp
  | cons c t ih =>
    have hc : c ≠ '<' := ht c (List.mem_cons_self c t)
    have ht' : ∀ c' ∈ t, c' ≠ '<' := fun c' h => ht c' (List.mem_cons_of_mem _ h)
    have hbe : ('<' == c) = false := beq_eq_false_iff_ne.mpr (Ne.symm hc)
    rw [List.cons_append, countSub]
    have hpre : ("<li>".data.isPrefixOf (c :: (t ++ u))) = false := by
      rw [li_open_chars]
      simp [List.isPrefixOf, hbe]
    rw [hpre]
    simp only [Bool.false_eq_true, if_false]
    exact ih ht'

theorem countSub_close_pass (u : List Char) :
    countSub ("<li>").data ("</li>".data ++ u) = countSub ("<li>").data u := by
  rw [li_close_cons u]
  rw [countSub]
  have hpre : ("<li>".data.isPrefixOf ('<' :: '/' :: 'l' :: 'i' :: '>' :: u)) = false := by
    rw [li_open_chars]
    simp [List.isPrefixOf]
  rw [hpre]
  simp only [Bool.false_eq_true, if_false]
  exact countSub_li_pass (by decide : ∀ c ∈ ['/', 'l', 'i', '>'], c ≠ '<')

theorem countSub_warningsHtml (ws : List String) :
    countSub ("<li>").data (warningsHtml ws) = ws.dedup.length := by
  unfold warningsHtml
  generalize ws.dedup = L
  induction L with
  | nil => simp [countSub]
  | cons w L ih =>
    rw [List.map_cons, List.flatten_cons]
    have hshape : liItem w ++ (L.map liItem).flatten
        = '<' :: 'l' :: 'i' :: '>' :: (escapeHtml w ++ ("</li>".data ++ (L.map liItem).flatten)) := by
      simp [liItem, li_open_chars,
        List.append_assoc]
    rw [hshape, countSub]
    have hpre : ("<li>".data.isPrefixOf
        ('<' :: 'l' :: 'i' :: '>' :: (escapeHtml w ++ ("</li>".data ++ (L.map liItem).flatten)))) = true := by
      rw [li_open_chars]
      simp [List.isPrefixOf]
    rw [hpre]
    simp only [if_true]
    have hdrop : List.drop ("<li>".data.length - 1)
        ('l' :: 'i' :: '>' :: (escapeHtml w ++ ("</li>".data ++ (L.map liItem).flatten)))
        = escapeHtml w ++ ("</li>".data ++ (L.map liItem).flatten) := rfl
    rw [hdrop, countSub_li_pass (escapeHtml_ne_lt w), countSub_close_pass, ih]
    simp [List.length_cons]
    omega
/-! ### Relating the skeleton to its piece list -/

theorem zigSkeleton_eq_pieces (name rust : String) (a : Analysis) :
    zigSkeleton name rust a = (zigSkeletonPieces name rust a).flatten := by
  simp [zigSkeleton, zigSkeletonPieces, zc2, zc7, data_append_eq, List.append_assoc]

/-! ### The claims -/

/-- C1: For every source text, the warnings produced by analyze contain exactly
the messages of the unsupported-feature rules whose detection pattern has at
least one match in the text: every matched rule's message is present, no
unmatched rule's message is present, and each message occurs at most once even
when its pattern matches multiple times. -/
theorem C1_warnings_exact (s m : String) :
    (m ∈ analyzeWarnings s
        ↔ ∃ p, (p, m) ∈ UNSUPPORTED_FEATURES ∧ p.matchesIn s.data = true)
      ∧ (analyzeWarnings s).count m ≤ 1 := by
  have hw : analyzeWarnings s
      = (UNSUPPORTED_FEATURES.filter (fun r => r.1.matchesIn s.data)).map Prod.snd := by
    simpa [analyzeWarnings] using
      foldl_filter_warn (fun r => r.1.matchesIn s.data) UNSUPPORTED_FEATURES []
  constructor
  · rw [hw]
    constructor
    · intro hm
      obtain ⟨r, hr, hrm⟩ := List.mem_map.mp hm
      obtain ⟨hmem, hmatch⟩ := List.mem_filter.mp hr
      refine ⟨r.1, ?_, by simpa using hmatch⟩
      rw [← hrm]
      exact hmem
    · rintro ⟨p, hmem, hmatch⟩
      exact List.mem_map.mpr ⟨(p, m), List.mem_filter.mpr ⟨hmem, by simpa using hmatch⟩, rfl⟩
  · rw [hw]
    have hsub := (List.filter_sublist
      (l := UNSUPPORTED_FEATURES) (p := fun r => r.1.matchesIn s.data)).map Prod.snd
    have hnodup : (UNSUPPORTED_FEATURES.map Prod.snd).Nodup := by decide
    exact le_trans (hsub.count_le m) (List.nodup_iff_count_le_one.mp hnodup m)

/-- C2 counterexample: with colors = {"336699"} the skeleton nowhere contains
the channel strings `0.4` or `0.6` (= 0x66/255 and 0x99/255 rounded to 3
decimals) nor the byte values `102`/`153`, so no color constant with the
claimed channels is emitted — only the comment line is; and with the unparsable
token "zz" no placeholder mentioning the token appears at all. -/
theorem C2_counterexample :
    containsSub ("0.4").data (zigSkeleton ("x") "" exAnalysis336699) = false
      ∧ containsSub ("0.6").data (zigSkeleton ("x") "" exAnalysis336699) = false
      ∧ containsSub ("102").data (zigSkeleton ("x") "" exAnalysis336699) = false
      ∧ containsSub ("153").data (zigSkeleton ("x") "" exAnalysis336699) = false
      ∧ containsSub ("zz").data (zigSkeleton ("x") "" exAnalysisZZ) = false := by
  refine ⟨?_, ?_, ?_, ?_, ?_⟩ <;>
    · rw [zigSkeleton_eq_pieces, chunkScan_eq _ (by decide)]
      decide

/-- C2 (amended): for every analysis whose colors set holds a non-named token
whose three 2-digit slices all parse via int(·, 16), the skeleton contains the
comment line `// rgb(0x<token>)` (the computed channel floats are discarded);
when the slice parsing fails, the loop body appends nothing for that token and
generation still succeeds. -/
theorem C2_hex_placeholder :
    (∀ (name rust : String) (a : Analysis) (c : String),
        c ∈ a.colors → c ∉ namedColors → hexSlicesOk c.data = true →
          containsSub ("// rgb(0x" ++ c ++ ")").data (zigSkeleton name rust a) = true)
      ∧ (∀ c : String, c ∉ namedColors → hexSlicesOk c.data = false → colorDef c = none) := by
  constructor
  · intro name rust a c hc hnc hhex
    obtain ⟨h1, h2, h3, h4, h5, h6⟩ :
        ¬ c = "red" ∧ ¬ c = "green" ∧ ¬ c = "blue" ∧ ¬ c = "yellow"
          ∧ ¬ c = "black" ∧ ¬ c = "white" := by
      simpa [namedColors, not_or] using hnc
    have hdef : colorDef c = some ("// rgb(0x" ++ c ++ ")") := by
      unfold colorDef
      rw [if_neg h1, if_neg h2, if_neg h3, if_neg h4, if_neg h5, if_neg h6, if_pos hhex]
    exact colorDef_in_skeleton name rust a c _ hc hdef
  · intro c hnc hf
    obtain ⟨h1, h2, h3, h4, h5, h6⟩ :
        ¬ c = "red" ∧ ¬ c = "green" ∧ ¬ c = "blue" ∧ ¬ c = "yellow"
          ∧ ¬ c = "black" ∧ ¬ c = "white" := by
      simpa [namedColors, not_or] using hnc
    unfold colorDef
    rw [if_neg h1, if_neg h2, if_neg h3, if_neg h4, if_neg h5, if_neg h6,
      if_neg (by simp [hf])]

/-- C2 witness: the comment line for "336699" is in the concrete skeleton, and
the unparsable token "zz" contributes no line. -/
theorem C2_hex_placeholder_witness :
    containsSub ("// rgb(0x" ++ "336699" ++ ")").data (zigSkeleton ("x") "" exAnalysis336699) = true
      ∧ colorDef ("zz") = none :=
  ⟨C2_hex_placeholder.1 ("x") "" exAnalysis336699 ("336699") (by decide) (by decide) (by decide),
   C2_hex_placeholder.2 ("zz") (by decide) (by decide)⟩

/-- C3: when the window-size regex has no match the analysis keeps the default
(500, 500); the text `size(px(800.0), px(600.0))` yields (800, 600); fractional
arguments are truncated, not rounded; with two size constructs the first
(leftmost) match wins. -/
theorem C3_window_size :
    (∀ s : String, sizeSearch s.data = none →
        (analyze s).map Analysis.window_size = some (500, 500))
      ∧ (analyze ("size(px(800.0), px(600.0))")).map Analysis.window_size = some (800, 600)
      ∧ (analyze ("size(px(799.9), px(600.5))")).map Analysis.window_size = some (799, 600)
      ∧ (analyze ("size(px(800.0), px(600.0)) size(px(300.0), px(200.0))")).map
          Analysis.window_size = some (800, 600) := by
  refine ⟨?_, by decide, by decide, by decide⟩
  intro s h
  simp [analyze, sizeResult, h]

/-- C3 witness: a text with no size construct keeps the default. -/
theorem C3_window_size_witness :
    (analyze ("fn main()")).map Analysis.window_size = some (500, 500) :=
  C3_window_size.1 ("fn main()") (by decide)

/-- C4 counterexample: with a non-empty warnings set, the generated Zig
skeleton does not contain the warning message at all — the skeleton has no
warning block (only the HTML report does). -/
theorem C4_counterexample :
    exAnalysisWarn.warnings ≠ []
      ∧ containsSub ("Event handlers need manual implementation").data
          (zigSkeleton ("x") "" exAnalysisWarn) = false := by
  refine ⟨by decide, ?_⟩
  rw [zigSkeleton_eq_pieces, chunkScan_eq _ (by decide)]
  decide

/-- C4 (amended): it is the generated HTML report that carries the warnings:
for every warning message the report contains its `<li>…</li>` item; when the
warnings set is empty the report contains the single
`<li class="success">None - straightforward port!</li>` item instead; and the
warnings block holds exactly one `<li>` item per unique message. -/
theorem C4_report_warning_items :
    (∀ (name rust zg : String) (a : Analysis) (w : String), w ∈ a.warnings →
        containsSub (liItem w) (htmlReport name rust zg a) = true)
      ∧ (∀ (name rust zg : String) (a : Analysis), a.warnings = [] →
          containsSub successItem (htmlReport name rust zg a) = true)
      ∧ (∀ ws : List String, countSub ("<li>").data (warningsHtml ws) = ws.dedup.length) := by
  refine ⟨?_, ?_, countSub_warningsHtml⟩
  · intro name rust zg a w hw
    exact warnBlock_in_report name rust zg a _ (warnBlock_of_mem hw)
  · intro name rust zg a hnil
    have hb : warnBlock a.warnings = successItem := by
      unfold warnBlock warningsHtml
      rw [hnil]
      rfl
    refine warnBlock_in_report name rust zg a _ ?_
    rw [hb]
    exact containsSub_self successItem

/-- C4 witness: concrete report containments and the item count. -/
theorem C4_report_warning_items_witness :
    containsSub (liItem ("Event handlers need manual implementation"))
        (htmlReport ("x") "" "" exAnalysisWarn) = true
      ∧ containsSub successItem (htmlReport ("x") "" "" exAnalysisNoWarn) = true
      ∧ countSub ("<li>").data (warningsHtml exAnalysisWarn.warnings)
          = exAnalysisWarn.warnings.dedup.length :=
  ⟨C4_report_warning_items.1 ("x") "" "" exAnalysisWarn _ (by decide),
   C4_report_warning_items.2.1 ("x") "" "" exAnalysisNoWarn rfl,
   C4_report_warning_items.2.2 exAnalysisWarn.warnings⟩

/-- C5 counterexample: two hex literals for the same color in different case
yield two distinct elements (no case normalization), and a 3-digit literal is
stored as a 3-character token (no six-character guarantee). -/
theorem C5_counterexample :
    analyzeColors ("rgb(0xAABBCC) rgb(0xaabbcc)") = ["AABBCC", "aabbcc"]
      ∧ analyzeColors ("rgb(0xFFF)") = ["FFF"] :=
  ⟨by decide, by decide⟩

/-- C5 (amended): every token in the colors set is either one of the six named
colors or a nonempty hex-digit string stored verbatim — exactly as written
(case preserved, any length), with the literal `rgb(0x<token>)` occurring in
the source text — so equal-value literals in different case give distinct
elements. -/
theorem C5_hex_tokens_verbatim (s t : String) (h : t ∈ analyzeColors s) :
    t ∈ namedColors
      ∨ (t.data ≠ [] ∧ t.data.all isHexDig = true
          ∧ containsSub ("rgb(0x".data ++ t.data ++ [')']) s.data = true) := by
  unfold analyzeColors at h
  rcases mem_foldl_setAdd_named _ _ _ h with h' | hn
  · rcases mem_foldl_setAdd_hex _ _ _ h' with h'' | ⟨hx, hmem, rfl⟩
    · exact absurd h'' (List.not_mem_nil t)
    · obtain ⟨hne, hall, hsub⟩ := hexScanGo_sound _ _ _ hmem
      refine Or.inr ⟨hne, hall, ?_⟩
      obtain ⟨u, v, huv⟩ := (containsSub_eq_true_iff _ _).mp hsub
      refine (containsSub_eq_true_iff _ _).mpr ⟨u, v, ?_⟩
      rw [huv]
      simp [List.append_assoc]
  · exact Or.inl hn

/-- C5 witness: the token "AABBCC" of a concrete text is a verbatim hex token. -/
theorem C5_hex_tokens_verbatim_witness :
    "AABBCC" ∈ namedColors
      ∨ ("AABBCC".data ≠ [] ∧ "AABBCC".data.all isHexDig = true
          ∧ containsSub ("rgb(0x".data ++ "AABBCC".data ++ [')'])
              "rgb(0xAABBCC)".data = true) :=
  C5_hex_tokens_verbatim ("rgb(0xAABBCC)") "AABBCC" (by decide)

/-- C6: whenever `green` is among the colors, the skeleton contains the exact
predeclared constant line `const green = [4]f32{ 0, 0.5, 0, 1 }; // gpui::green()`
— the same fixed line in every generation — whose mid-intensity channel 1/2
differs from the 128/255 of standard pure green scaled to unit range. -/
theorem C6_green_nonstandard (name rust : String) (a : Analysis)
    (h : "green" ∈ a.colors) :
    containsSub greenLine.data (zigSkeleton name rust a) = true
      ∧ (1 : ℚ) / 2 ≠ 128 / 255 := by
  refine ⟨colorDef_in_skeleton name rust a ("green") greenLine h (by decide), by norm_num⟩

/-- C6 witness at a concrete analysis. -/
theorem C6_green_nonstandard_witness :
    containsSub greenLine.data (zigSkeleton ("x") "" exAnalysisGreen) = true
      ∧ (1 : ℚ) / 2 ≠ 128 / 255 :=
  C6_green_nonstandard ("x") "" exAnalysisGreen (by decide)

/-- C7: skeleton generation is deterministic and depends on the colors set only
through its sorted enumeration: analyses equal except for the insertion order
of the colors set (modelled as permuted lists) generate byte-identical
skeletons; moreover the enumeration feeding the color block is lexicographically
sorted. -/
theorem C7_sorted_colors_deterministic (name rust : String) (a₁ a₂ : Analysis)
    (hw : a₁.warnings = a₂.warnings) (hc : a₁.colors.Perm a₂.colors)
    (hs : a₁.window_size = a₂.window_size) (ht : a₁.title = a₂.title) :
    zigSkeleton name rust a₁ = zigSkeleton name rust a₂
      ∧ List.Sorted (· ≤ ·) (sortColors a₁.colors) := by
  refine ⟨?_, List.sorted_insertionSort (· ≤ ·) a₁.colors⟩
  have hsort : sortColors a₁.colors = sortColors a₂.colors := by
    unfold sortColors
    exact List.eq_of_perm_of_sorted
      (((List.perm_insertionSort (· ≤ ·) a₁.colors).trans hc).trans
        (List.perm_insertionSort (· ≤ ·) a₂.colors).symm)
      (List.sorted_insertionSort (· ≤ ·) a₁.colors)
      (List.sorted_insertionSort (· ≤ ·) a₂.colors)
  simp [zigSkeleton, colorsSection, colorDefs, hsort, hs]

/-- C7 witness: the two insertion orders of {"red", "blue"} generate the same
skeleton. -/
theorem C7_sorted_colors_deterministic_witness :
    zigSkeleton ("x") "" exAnalysisRB1 = zigSkeleton ("x") "" exAnalysisRB2
      ∧ List.Sorted (· ≤ ·) (sortColors exAnalysisRB1.colors) :=
  C7_sorted_colors_deterministic ("x") "" exAnalysisRB1 exAnalysisRB2 rfl (by decide) rfl rfl

/-- C8: the never-raises policy is violated by the code: on a source text
whose size construct carries a 309-digit first argument, the regex matches,
`float` of the capture overflows to `inf`, and `int(inf)` raises
OverflowError with no surrounding try/except — the exception propagates to
the caller instead of being skipped in favour of the default (500, 500). In
the model: analyze of that text is `none` (a propagated exception), not
`some` of an analysis. -/
theorem C8_overflow_raises : analyze overflowSrc = none := by decide

/-- C9: whenever analyze returns an Analysis record at all (it can instead
raise on extreme size captures, see C8), the record's title field is the
constant "ZapUI" — never derived from the source text; neither the skeleton
nor the report depends on analysis.title; and the display title of the
skeleton is derived from the example name (`name.replace('_',' ').title()`),
appearing right after `//! `. -/
theorem C9_title_constant :
    (∀ (s : String) (a : Analysis), analyze s = some a → a.title = "ZapUI")
      ∧ (∀ (name rust t : String) (a : Analysis),
          zigSkeleton name rust { a with title := t } = zigSkeleton name rust a)
      ∧ (∀ (name rust zg t : String) (a : Analysis),
          htmlReport name rust zg { a with title := t } = htmlReport name rust zg a)
      ∧ (∀ (name rust : String) (a : Analysis), ∃ r : List Char,
          zigSkeleton name rust a = "//! ".data ++ (pyTitle name).data ++ r) := by
  refine ⟨?_, fun _ _ _ _ => rfl, fun _ _ _ _ _ => rfl, ?_⟩
  · intro s a h
    unfold analyze at h
    cases hs : sizeResult s with
    | none =>
      rw [hs] at h
      exact absurd h (by simp)
    | some ws =>
      rw [hs] at h
      simp only [Option.map_some'] at h
      injection h with h'
      rw [← h']
  · intro name rust a
    refine ⟨zc1.data ++ name.data ++ zc2.data ++ colorsSection a.colors ++ zc3.data
      ++ (className name).data ++ zc4.data ++ (className name).data ++ zc5.data
      ++ (className name).data ++ zc6.data ++ name.data ++ zc7.data
      ++ (toString a.window_size.1).data ++ zc8.data ++ (toString a.window_size.2).data
      ++ zc9.data ++ (pyTitle name).data ++ zc10.data ++ (toString a.window_size.1).data
      ++ zc11.data ++ (toString a.window_size.2).data ++ zc12.data
      ++ (className name).data ++ zc13.data, ?_⟩
    simp [zigSkeleton, zc0, List.append_assoc]

/-- C9 witness: the conditional title invariant exercised at a concrete run
that does return a record. -/
theorem C9_title_constant_witness :
    (Analysis.mk [] [] (500, 500) ("ZapUI")).title = "ZapUI" :=
  C9_title_constant.1 ("x") (Analysis.mk [] [] (500, 500) ("ZapUI")) (by decide)

/-- C10: the size extraction can pair numbers from two different px() calls
that are not the two arguments of one size construct: `size(px(100.0))`
followed later on the same line by an unrelated `px(200.0)` yields (100, 200),
while the same text with a newline between them yields the default (500, 500)
because the lazy gap cannot cross a newline. -/
theorem C10_size_cross_pairing :
    (analyze ("size(px(100.0)) and px(200.0)")).map Analysis.window_size = some (100, 200)
      ∧ (analyze ("size(px(100.0))\npx(200.0)")).map Analysis.window_size = some (500, 500) :=
  ⟨by decide, by decide⟩
